import Mathlib

/-!
Shallow embedding of the job-orchestration core of the Mercado backend
(`gateway/app/main.py`, `gateway/app/pipeline.py`, `gateway/app/db.py`).

Job status values are string enums in the source (`JobStatus(str, Enum)`),
and the database column stores plain strings; we model `status` as `String`
with the literal values `"queued"`, `"scraping"`, `"classifying"`,
`"analyzing"`, `"generating"`, `"done"`, `"failed"`, `"cancelled"`.

The pipeline is a straight-line worker (`run_pipeline`) that issues
`_update_job` writes and four HTTP stage calls; we model one run as the
ordered list of its externally visible events (DB updates and stage-client
invocations) together with the exception it re-raises, if any.  Review items
and analysis payloads are opaque to the orchestrator, so they are modelled
as `String`.  `mau` is a Python `int | None` (`Option Int`); `arpu` is a
`float | None` carried opaquely with no arithmetic, modelled as `Option ℚ`.
Timestamps are abstract ticks (`Nat`); `updated_at` is bumped on every
mutation.
-/

namespace Mercado

/-- One row of the `jobs` table (`gateway/app/db.py`, class `Job`). -/
structure Job where
  job_id : String
  product_name : String
  status : String
  stage : String
  progress_pct : Nat
  error : Option String
  report_path : Option String
  result_json : Option String
  mau : Option Int
  arpu : Option ℚ
  created_at : Nat
  updated_at : Nat
deriving Repr, DecidableEq

/-- The keyword arguments of one `_update_job` call in `pipeline.py`:
a field that is `none` was not passed and is left untouched.
(`updated_at` is set unconditionally by `_update_job` and is handled by
`applyUpdate` below.) -/
structure UpdateFields where
  status : Option String := none
  stage : Option String := none
  progress_pct : Option Nat := none
  error : Option String := none
  report_path : Option String := none
  result_json : Option String := none
deriving Repr, DecidableEq

/-- Effect of `_update_job(job_id, **kwargs)` on the stored row: each passed
field overwrites the column, `updated_at` is bumped. -/
def applyUpdate (j : Job) (u : UpdateFields) : Job :=
  { j with
    status := u.status.getD j.status
    stage := u.stage.getD j.stage
    progress_pct := u.progress_pct.getD j.progress_pct
    error := match u.error with
      | some e => some e
      | none => j.error
    report_path := match u.report_path with
      | some p => some p
      | none => j.report_path
    result_json := match u.result_json with
      | some r => some r
      | none => j.result_json
    updated_at := j.updated_at + 1 }

/-- Externally visible events of one `run_pipeline` run, in program order:
DB updates and the four stage-client HTTP calls (with the payload the
orchestrator sends). -/
inductive Event where
  | update (u : UpdateFields)
  | callScrape
  | callClassify (reviews : List String)
  | callAnalyze (reviews : List String)
  | callRender (analysis : String)
deriving Repr, DecidableEq

/-- Behaviour of the environment for one run: what each remote stage
returns (`Except.error` models a raised exception, carrying `str(e)`), and
the result of the k-th `check_if_cancelled` DB read (the cancel endpoint is
a concurrent writer, so each checkpoint read is an oracle). -/
structure StageEnv where
  cancelledAt : Nat → Bool
  scrape : Except String (List String)
  classify : List String → Except String (List String)
  analyze : List String → Except String String
  render : String → Except String String

/-- `_update_job(job_id, status="scraping", stage=..., progress_pct=10)` -/
def scrapingUpdate : UpdateFields :=
  { status := some "scraping"
    stage := some "Scraping reviews from Reddit, HN, G2..."
    progress_pct := some 10 }

/-- The message of `ValueError("Scraper returned 0 reviews. ...")`. -/
def scraperZeroMsg : String :=
  "Scraper returned 0 reviews. Check product name or sources."

/-- `_update_job(job_id, stage=f"Scraped {n} raw items. Classifying...", progress_pct=30)` -/
def scrapedUpdate (n : Nat) : UpdateFields :=
  { stage := some s!"Scraped {n} raw items. Classifying..."
    progress_pct := some 30 }

/-- `_update_job(job_id, status="classifying", stage=..., progress_pct=35)` -/
def classifyingUpdate : UpdateFields :=
  { status := some "classifying"
    stage := some "Filtering spam, classifying quality..."
    progress_pct := some 35 }

/-- `_update_job(job_id, stage=f"{n} quality reviews. Running analysis...", progress_pct=55)` -/
def qualityUpdate (n : Nat) : UpdateFields :=
  { stage := some s!"{n} quality reviews. Running analysis..."
    progress_pct := some 55 }

/-- `_update_job(job_id, status="analyzing", stage=..., progress_pct=60)` -/
def analyzingUpdate : UpdateFields :=
  { status := some "analyzing"
    stage := some "Running 4 parallel AI agents..."
    progress_pct := some 60 }

/-- `_update_job(job_id, stage="Generating PDF report...", progress_pct=80)` -/
def genPdfUpdate : UpdateFields :=
  { stage := some "Generating PDF report..."
    progress_pct := some 80 }

/-- `_update_job(job_id, status="generating", stage="Minting PDF...", progress_pct=85)` -/
def generatingUpdate : UpdateFields :=
  { status := some "generating"
    stage := some "Minting PDF..."
    progress_pct := some 85 }

/-- The final `_update_job(..., status="done", stage="Complete", progress_pct=100,
report_path=..., result_json=analysis_result)`. -/
def doneUpdate (report_path analysis_result : String) : UpdateFields :=
  { status := some "done"
    stage := some "Complete"
    progress_pct := some 100
    report_path := some report_path
    result_json := some analysis_result }

/-- The `except Exception` handler:
`_update_job(job_id, status="failed", stage="Failed", error=str(e), progress_pct=0)`. -/
def failedUpdate (e : String) : UpdateFields :=
  { status := some "failed"
    stage := some "Failed"
    error := some e
    progress_pct := some 0 }

/-- The degradation step of `run_pipeline`:
`if len(clean_reviews) < 5: clean_reviews = raw_reviews[:15]`. -/
def cleanOf (raw clean : List String) : List String :=
  if clean.length < 5 then raw.take 15 else clean

/-- `run_pipeline` from `gateway/app/pipeline.py`, as the ordered event list of
one run plus the exception it re-raises (`none` when it returns normally).
Every `if check_if_cancelled(job_id): return` is a read of
`env.cancelledAt k` for the k-th checkpoint (k = 0..5 in program order). -/
def run_pipeline (env : StageEnv) : List Event × Option String :=
  if env.cancelledAt 0 then ([], none) else
  match env.scrape with
  | .error e =>
      ([.update scrapingUpdate, .callScrape, .update (failedUpdate e)], some e)
  | .ok raw_reviews =>
      if raw_reviews.isEmpty then
        ([.update scrapingUpdate, .callScrape, .update (failedUpdate scraperZeroMsg)],
          some scraperZeroMsg)
      else if env.cancelledAt 1 then
        ([.update scrapingUpdate, .callScrape], none)
      else if env.cancelledAt 2 then
        ([.update scrapingUpdate, .callScrape, .update (scrapedUpdate raw_reviews.length)],
          none)
      else
        match env.classify raw_reviews with
        | .error e =>
            ([.update scrapingUpdate, .callScrape,
              .update (scrapedUpdate raw_reviews.length), .update classifyingUpdate,
              .callClassify raw_reviews, .update (failedUpdate e)], some e)
        | .ok cls =>
            let clean_reviews := cleanOf raw_reviews cls
            if env.cancelledAt 3 then
              ([.update scrapingUpdate, .callScrape,
                .update (scrapedUpdate raw_reviews.length), .update classifyingUpdate,
                .callClassify raw_reviews], none)
            else if env.cancelledAt 4 then
              ([.update scrapingUpdate, .callScrape,
                .update (scrapedUpdate raw_reviews.length), .update classifyingUpdate,
                .callClassify raw_reviews, .update (qualityUpdate clean_reviews.length)],
                none)
            else
              match env.analyze clean_reviews with
              | .error e =>
                  ([.update scrapingUpdate, .callScrape,
                    .update (scrapedUpdate raw_reviews.length), .update classifyingUpdate,
                    .callClassify raw_reviews, .update (qualityUpdate clean_reviews.length),
                    .update analyzingUpdate, .callAnalyze clean_reviews,
                    .update (failedUpdate e)], some e)
              | .ok analysis_result =>
                  if env.cancelledAt 5 then
                    ([.update scrapingUpdate, .callScrape,
                      .update (scrapedUpdate raw_reviews.length), .update classifyingUpdate,
                      .callClassify raw_reviews, .update (qualityUpdate clean_reviews.length),
                      .update analyzingUpdate, .callAnalyze clean_reviews], none)
                  else
                    match env.render analysis_result with
                    | .error e =>
                        ([.update scrapingUpdate, .callScrape,
                          .update (scrapedUpdate raw_reviews.length),
                          .update classifyingUpdate, .callClassify raw_reviews,
                          .update (qualityUpdate clean_reviews.length),
                          .update analyzingUpdate, .callAnalyze clean_reviews,
                          .update genPdfUpdate, .update generatingUpdate,
                          .callRender analysis_result, .update (failedUpdate e)], some e)
                    | .ok report_path =>
                        ([.update scrapingUpdate, .callScrape,
                          .update (scrapedUpdate raw_reviews.length),
                          .update classifyingUpdate, .callClassify raw_reviews,
                          .update (qualityUpdate clean_reviews.length),
                          .update analyzingUpdate, .callAnalyze clean_reviews,
                          .update genPdfUpdate, .update generatingUpdate,
                          .callRender analysis_result,
                          .update (doneUpdate report_path analysis_result)], none)

/-- Effect of one event on the stored row: updates write, stage calls do not. -/
def applyEvent (j : Job) (e : Event) : Job :=
  match e with
  | .update u => applyUpdate j u
  | _ => j

/-- The stored row after one `run_pipeline` run starting from row `j`. -/
def runJob (env : StageEnv) (j : Job) : Job :=
  (run_pipeline env).1.foldl applyEvent j

/-- The job row created by the `POST /analyze` handler (`main.py`), with the
column defaults from `db.py`. -/
def initialJob (job_id product_name : String) (mau : Option Int) (arpu : Option ℚ)
    (now : Nat) : Job :=
  { job_id := job_id
    product_name := product_name
    status := "queued"
    stage := "Queued — waiting for worker"
    progress_pct := 0
    error := none
    report_path := none
    result_json := none
    mau := mau
    arpu := arpu
    created_at := now
    updated_at := now }

/-- Outcome of `POST /cancel/{job_id}` (`main.py`, `cancel_job`). -/
inductive CancelResult where
  | notFound
  | alreadyFinished
  | ok (job : Job)
deriving Repr, DecidableEq

/-- `cancel_job` from `gateway/app/main.py`: 404 when the row is missing,
400 `"Job already finished"` when `job.status in [JobStatus.DONE, JobStatus.FAILED]`,
otherwise it sets status/stage/error and commits (bumping `updated_at`). -/
def cancel_job (job : Option Job) : CancelResult :=
  match job with
  | none => .notFound
  | some j =>
      if j.status = "done" ∨ j.status = "failed" then
        .alreadyFinished
      else
        .ok { j with
              status := "cancelled"
              stage := "Analysis stopped by user."
              error := some "User cancellation"
              updated_at := j.updated_at + 1 }

/-- The status values written by a run, in order (`filterMap` of the `status`
kwarg over the update events). -/
def statusWrites (evs : List Event) : List String :=
  evs.filterMap fun e =>
    match e with
    | .update u => u.status
    | _ => none

/-- The progress_pct values written by a run, in order. -/
def progressWrites (evs : List Event) : List Nat :=
  evs.filterMap fun e =>
    match e with
    | .update u => u.progress_pct
    | _ => none

/-- The error field of a successful cancel outcome (used to inspect results). -/
def cancelError (r : CancelResult) : Option String :=
  match r with
  | .ok j => j.error
  | _ => none

/-- A concrete stored job row with the given status, for concrete runs. -/
def sampleJob (st : String) : Job :=
  { job_id := "j1"
    product_name := "Acme"
    status := st
    stage := "some stage"
    progress_pct := 42
    error := none
    report_path := none
    result_json := none
    mau := some 1000
    arpu := some 2
    created_at := 0
    updated_at := 3 }

/-- The row `cancel_job` produces from `sampleJob "queued"`. -/
def cancelledSample : Job :=
  { sampleJob "queued" with
    status := "cancelled"
    stage := "Analysis stopped by user."
    error := some "User cancellation"
    updated_at := (sampleJob "queued").updated_at + 1 }

/-- C1 counterexample: a job whose status is CANCELLED (terminal) is NOT
rejected by `cancel_job` — the guard only checks DONE and FAILED, so the
second cancel call on a freshly-cancelled job succeeds instead of
returning a conflict. -/
theorem cancel_cancelled_job_not_conflict :
    (sampleJob "cancelled").status = "cancelled" ∧
    cancel_job (some (sampleJob "cancelled")) ≠ CancelResult.alreadyFinished := by
  constructor
  · rfl
  · simp [cancel_job, sampleJob]

/-- C1 amended: `cancel_job` rejects with a conflict exactly the jobs whose
status is DONE or FAILED, leaving those records unchanged (the handler
raises before any mutation); on a job whose status is CANCELLED the call
succeeds again, and the resulting status is still CANCELLED. -/
theorem cancel_conflict_only_done_failed (j : Job) :
    ((j.status = "done" ∨ j.status = "failed") →
      cancel_job (some j) = CancelResult.alreadyFinished) ∧
    (j.status = "cancelled" →
      ∃ j', cancel_job (some j) = CancelResult.ok j' ∧ j'.status = "cancelled") := by
  constructor
  · intro h
    simp [cancel_job, h]
  · intro h
    have hne : ¬(j.status = "done" ∨ j.status = "failed") := by simp [h]
    refine ⟨{ j with
               status := "cancelled"
               stage := "Analysis stopped by user."
               error := some "User cancellation"
               updated_at := j.updated_at + 1 }, ?_, rfl⟩
    simp [cancel_job, hne]

theorem cancel_conflict_only_done_failed_witness :
    cancel_job (some (sampleJob "done")) = CancelResult.alreadyFinished ∧
    ∃ j', cancel_job (some (sampleJob "cancelled")) = CancelResult.ok j' ∧
      j'.status = "cancelled" :=
  ⟨(cancel_conflict_only_done_failed (sampleJob "done")).1 (Or.inl rfl),
   (cancel_conflict_only_done_failed (sampleJob "cancelled")).2 rfl⟩

/-- C8 counterexample: cancelling a queued job records the error message
`"User cancellation"` (capital U), not `"user cancellation"` as claimed. -/
theorem cancel_message_not_lowercase :
    cancelError (cancel_job (some (sampleJob "queued"))) = some "User cancellation" ∧
    cancelError (cancel_job (some (sampleJob "queued"))) ≠ some "user cancellation" := by
  constructor
  · rfl
  · simp [cancelError, cancel_job, sampleJob]

/-- C8 amended: on every job whose status is neither DONE nor FAILED, the
cancel endpoint transitions the record to CANCELLED and records the fixed
error message `"User cancellation"`. -/
theorem cancel_sets_fixed_message (j : Job)
    (h1 : j.status ≠ "done") (h2 : j.status ≠ "failed") :
    ∃ j', cancel_job (some j) = CancelResult.ok j' ∧
      j'.status = "cancelled" ∧ j'.error = some "User cancellation" := by
  refine ⟨{ j with
             status := "cancelled"
             stage := "Analysis stopped by user."
             error := some "User cancellation"
             updated_at := j.updated_at + 1 }, ?_, rfl, rfl⟩
  simp [cancel_job, h1, h2]

theorem cancel_sets_fixed_message_witness :
    (sampleJob "queued").status ≠ "done" ∧ (sampleJob "queued").status ≠ "failed" ∧
    ∃ j', cancel_job (some (sampleJob "queued")) = CancelResult.ok j' ∧
      j'.status = "cancelled" ∧ j'.error = some "User cancellation" :=
  ⟨by simp [sampleJob], by simp [sampleJob],
   cancel_sets_fixed_message (sampleJob "queued") (by simp [sampleJob])
     (by simp [sampleJob])⟩

/-- C10: a successful cancel modifies only status, stage, error and
updated_at; progress_pct, report_path, result_json, product_name, mau,
arpu and created_at are unchanged. -/
theorem cancel_frame (j j' : Job) (h : cancel_job (some j) = CancelResult.ok j') :
    j'.progress_pct = j.progress_pct ∧ j'.report_path = j.report_path ∧
    j'.result_json = j.result_json ∧ j'.product_name = j.product_name ∧
    j'.mau = j.mau ∧ j'.arpu = j.arpu ∧ j'.created_at = j.created_at ∧
    j'.job_id = j.job_id := by
  simp only [cancel_job] at h
  split at h
  · exact absurd h (by simp)
  · injection h with h
    subst h
    simp

theorem cancel_frame_witness :
    cancel_job (some (sampleJob "queued")) = CancelResult.ok cancelledSample ∧
    (cancelledSample.progress_pct = (sampleJob "queued").progress_pct ∧
      cancelledSample.report_path = (sampleJob "queued").report_path ∧
      cancelledSample.result_json = (sampleJob "queued").result_json ∧
      cancelledSample.product_name = (sampleJob "queued").product_name ∧
      cancelledSample.mau = (sampleJob "queued").mau ∧
      cancelledSample.arpu = (sampleJob "queued").arpu ∧
      cancelledSample.created_at = (sampleJob "queued").created_at ∧
      cancelledSample.job_id = (sampleJob "queued").job_id) :=
  ⟨by simp [cancel_job, sampleJob, cancelledSample],
   cancel_frame (sampleJob "queued") cancelledSample
     (by simp [cancel_job, sampleJob, cancelledSample])⟩

/-- An environment whose scrape stage returns zero reviews. -/
def emptyScrapeEnv : StageEnv :=
  { cancelledAt := fun _ => false
    scrape := .ok []
    classify := fun _ => .ok []
    analyze := fun _ => .ok ""
    render := fun _ => .ok "" }

/-- An environment where every stage succeeds; scrape yields two reviews and
classify echoes its input (two accepted items, below the threshold of 5). -/
def happyEnv : StageEnv :=
  { cancelledAt := fun _ => false
    scrape := .ok ["r1", "r2"]
    classify := fun rs => .ok rs
    analyze := fun _ => .ok "analysis"
    render := fun _ => .ok "report.pdf" }

/-- Like `happyEnv`, but the cancel endpoint has set CANCELLED by the time of
the checkpoint right after the scrape call (checkpoint 1). -/
def cancelAt1Env : StageEnv :=
  { cancelledAt := fun k => k == 1
    scrape := .ok ["r1", "r2"]
    classify := fun rs => .ok rs
    analyze := fun _ => .ok "analysis"
    render := fun _ => .ok "report.pdf" }

/-- Like `happyEnv`, but the render stage raises. -/
def renderFailEnv : StageEnv :=
  { cancelledAt := fun _ => false
    scrape := .ok ["r1", "r2"]
    classify := fun rs => .ok rs
    analyze := fun _ => .ok "analysis"
    render := fun _ => .error "render boom" }

/-- C2: when the scrape stage returns an empty review list, the run ends
with the job FAILED at progress 0 with a non-empty error, and the classify,
analyze and render stage clients are never invoked. -/
theorem scrape_empty_fails (env : StageEnv) (jid pn : String) (mau : Option Int)
    (arpu : Option ℚ) (t0 : Nat)
    (h0 : env.cancelledAt 0 = false) (hs : env.scrape = .ok []) :
    (runJob env (initialJob jid pn mau arpu t0)).status = "failed" ∧
    (runJob env (initialJob jid pn mau arpu t0)).progress_pct = 0 ∧
    (runJob env (initialJob jid pn mau arpu t0)).error = some scraperZeroMsg ∧
    scraperZeroMsg ≠ "" ∧
    (∀ l, Event.callClassify l ∉ (run_pipeline env).1) ∧
    (∀ l, Event.callAnalyze l ∉ (run_pipeline env).1) ∧
    (∀ a, Event.callRender a ∉ (run_pipeline env).1) := by
  have ht : run_pipeline env =
      ([.update scrapingUpdate, .callScrape, .update (failedUpdate scraperZeroMsg)],
        some scraperZeroMsg) := by
    simp [run_pipeline, h0, hs]
  refine ⟨?_, ?_, ?_, ?_, ?_, ?_, ?_⟩ <;>
    simp [runJob, ht, applyEvent, applyUpdate, initialJob, scrapingUpdate,
      failedUpdate, scraperZeroMsg]

theorem scrape_empty_fails_witness :
    emptyScrapeEnv.cancelledAt 0 = false ∧ emptyScrapeEnv.scrape = .ok [] ∧
    ((runJob emptyScrapeEnv (initialJob "j1" "Acme" none none 0)).status = "failed" ∧
     (runJob emptyScrapeEnv (initialJob "j1" "Acme" none none 0)).progress_pct = 0 ∧
     (runJob emptyScrapeEnv (initialJob "j1" "Acme" none none 0)).error =
        some scraperZeroMsg ∧
     scraperZeroMsg ≠ "" ∧
     (∀ l, Event.callClassify l ∉ (run_pipeline emptyScrapeEnv).1) ∧
     (∀ l, Event.callAnalyze l ∉ (run_pipeline emptyScrapeEnv).1) ∧
     (∀ a, Event.callRender a ∉ (run_pipeline emptyScrapeEnv).1)) :=
  ⟨rfl, rfl, scrape_empty_fails emptyScrapeEnv "j1" "Acme" none none 0 rfl rfl⟩

/-- C4: on a fully successful, uncancelled run the status values written are
exactly queued (at creation), scraping, classifying, analyzing, generating,
done, in order, and the progress_pct values written are non-decreasing and
end at 100. -/
theorem happy_path_sequences (env : StageEnv) (raw cls : List String) (b p : String)
    (jid pn : String) (mau : Option Int) (arpu : Option ℚ) (t0 : Nat)
    (hc : ∀ k, env.cancelledAt k = false)
    (hs : env.scrape = .ok raw) (hraw : raw ≠ [])
    (hcl : env.classify raw = .ok cls)
    (ha : env.analyze (cleanOf raw cls) = .ok b)
    (hr : env.render b = .ok p) :
    (initialJob jid pn mau arpu t0).status = "queued" ∧
    statusWrites (run_pipeline env).1 =
      ["scraping", "classifying", "analyzing", "generating", "done"] ∧
    progressWrites (run_pipeline env).1 = [10, 30, 35, 55, 60, 80, 85, 100] ∧
    List.Chain' (fun a b => a ≤ b) (progressWrites (run_pipeline env).1) ∧
    (progressWrites (run_pipeline env).1).getLast? = some 100 := by
  have hne : raw.isEmpty = false := by
    cases raw with
    | nil => exact absurd rfl hraw
    | cons a t => rfl
  have ht : (run_pipeline env).1 =
      [.update scrapingUpdate, .callScrape, .update (scrapedUpdate raw.length),
       .update classifyingUpdate, .callClassify raw,
       .update (qualityUpdate (cleanOf raw cls).length), .update analyzingUpdate,
       .callAnalyze (cleanOf raw cls), .update genPdfUpdate, .update generatingUpdate,
       .callRender b, .update (doneUpdate p b)] := by
    simp [run_pipeline, hc, hs, hne, hcl, ha, hr]
  refine ⟨rfl, ?_, ?_, ?_, ?_⟩ <;>
    simp [ht, statusWrites, progressWrites, scrapingUpdate, scrapedUpdate,
      classifyingUpdate, qualityUpdate, analyzingUpdate, genPdfUpdate,
      generatingUpdate, doneUpdate, failedUpdate, List.filterMap]

theorem happy_path_sequences_witness :
    (∀ k, happyEnv.cancelledAt k = false) ∧
    happyEnv.scrape = .ok ["r1", "r2"] ∧ (["r1", "r2"] : List String) ≠ [] ∧
    ((initialJob "j1" "Acme" none none 0).status = "queued" ∧
     statusWrites (run_pipeline happyEnv).1 =
       ["scraping", "classifying", "analyzing", "generating", "done"] ∧
     progressWrites (run_pipeline happyEnv).1 = [10, 30, 35, 55, 60, 80, 85, 100] ∧
     List.Chain' (fun a b => a ≤ b) (progressWrites (run_pipeline happyEnv).1) ∧
     (progressWrites (run_pipeline happyEnv).1).getLast? = some 100) :=
  ⟨fun _ => rfl, rfl, by simp,
   happy_path_sequences happyEnv ["r1", "r2"] ["r1", "r2"] "analysis" "report.pdf"
     "j1" "Acme" none none 0 (fun _ => rfl) rfl (by simp) rfl rfl rfl⟩

/-- C6: when the checkpoint right after the scrape call reads CANCELLED, the
run stops: its whole event list is the pre-checkpoint scraping update and the
scrape call, so no classify/analyze/render invocation ever happens, no update
writes result_json, and folding the (empty) post-checkpoint suffix over the
cancelled row leaves it CANCELLED and untouched. -/
theorem cancelled_after_scrape_stops (env : StageEnv) (raw : List String)
    (h0 : env.cancelledAt 0 = false) (hs : env.scrape = .ok raw) (hraw : raw ≠ [])
    (h1 : env.cancelledAt 1 = true) :
    (run_pipeline env).1 = [Event.update scrapingUpdate, Event.callScrape] ∧
    (run_pipeline env).2 = none ∧
    statusWrites (run_pipeline env).1 = ["scraping"] ∧
    (∀ l, Event.callClassify l ∉ (run_pipeline env).1) ∧
    (∀ l, Event.callAnalyze l ∉ (run_pipeline env).1) ∧
    (∀ a, Event.callRender a ∉ (run_pipeline env).1) ∧
    (∀ u, Event.update u ∈ (run_pipeline env).1 → u.result_json = none) ∧
    (∀ j : Job, j.status = "cancelled" →
      ((run_pipeline env).1.drop 2).foldl applyEvent j = j ∧
      (((run_pipeline env).1.drop 2).foldl applyEvent j).status = "cancelled") := by
  have hne : raw.isEmpty = false := by
    cases raw with
    | nil => exact absurd rfl hraw
    | cons a t => rfl
  have ht : run_pipeline env =
      ([Event.update scrapingUpdate, Event.callScrape], none) := by
    simp [run_pipeline, h0, h1, hs, hne]
  refine ⟨by simp [ht], by simp [ht], ?_, ?_, ?_, ?_, ?_, ?_⟩
  · simp [ht, statusWrites, scrapingUpdate]
  · simp [ht]
  · simp [ht]
  · simp [ht]
  · intro u hu
    rw [ht] at hu
    simp at hu
    simp [hu, scrapingUpdate]
  · intro j hj
    rw [ht]
    exact ⟨rfl, by simp [hj]⟩

theorem cancelled_after_scrape_stops_witness :
    cancelAt1Env.cancelledAt 0 = false ∧ cancelAt1Env.scrape = .ok ["r1", "r2"] ∧
    cancelAt1Env.cancelledAt 1 = true ∧
    ((run_pipeline cancelAt1Env).1 =
        [Event.update scrapingUpdate, Event.callScrape] ∧
     (run_pipeline cancelAt1Env).2 = none ∧
     statusWrites (run_pipeline cancelAt1Env).1 = ["scraping"] ∧
     (∀ l, Event.callClassify l ∉ (run_pipeline cancelAt1Env).1) ∧
     (∀ l, Event.callAnalyze l ∉ (run_pipeline cancelAt1Env).1) ∧
     (∀ a, Event.callRender a ∉ (run_pipeline cancelAt1Env).1) ∧
     (∀ u, Event.update u ∈ (run_pipeline cancelAt1Env).1 → u.result_json = none) ∧
     (∀ j : Job, j.status = "cancelled" →
       ((run_pipeline cancelAt1Env).1.drop 2).foldl applyEvent j = j ∧
       (((run_pipeline cancelAt1Env).1.drop 2).foldl applyEvent j).status =
         "cancelled")) :=
  ⟨rfl, rfl, rfl,
   cancelled_after_scrape_stops cancelAt1Env ["r1", "r2"] rfl rfl (by simp) rfl⟩

/-- C3: when scrape returns a non-empty raw list and classify accepts fewer
than 5 items, the analyze client is invoked with the first 15 raw items
(`raw_reviews[:15]`), and the low yield alone does not fail the job: if
analyze and render then succeed, the run re-raises nothing and its last
status write is "done". -/
theorem low_yield_uses_raw_top15 (env : StageEnv) (raw cls : List String)
    (hc : ∀ k, env.cancelledAt k = false)
    (hs : env.scrape = .ok raw) (hraw : raw ≠ [])
    (hcl : env.classify raw = .ok cls) (hlow : cls.length < 5) :
    Event.callAnalyze (raw.take 15) ∈ (run_pipeline env).1 ∧
    (∀ b p, env.analyze (raw.take 15) = .ok b → env.render b = .ok p →
      (run_pipeline env).2 = none ∧
      (statusWrites (run_pipeline env).1).getLast? = some "done") := by
  have hne : raw.isEmpty = false := by
    cases raw with
    | nil => exact absurd rfl hraw
    | cons a t => rfl
  have hclean : cleanOf raw cls = raw.take 15 := by
    simp [cleanOf, hlow]
  constructor
  · rcases hA : env.analyze (raw.take 15) with e | b
    · simp [run_pipeline, hc, hs, hne, hcl, hclean, hA]
    · rcases hR : env.render b with e2 | p
      · simp [run_pipeline, hc, hs, hne, hcl, hclean, hA, hR]
      · simp [run_pipeline, hc, hs, hne, hcl, hclean, hA, hR]
  · intro b p ha hr
    have ht : run_pipeline env =
        ([.update scrapingUpdate, .callScrape, .update (scrapedUpdate raw.length),
          .update classifyingUpdate, .callClassify raw,
          .update (qualityUpdate (raw.take 15).length), .update analyzingUpdate,
          .callAnalyze (raw.take 15), .update genPdfUpdate, .update generatingUpdate,
          .callRender b, .update (doneUpdate p b)], none) := by
      simp [run_pipeline, hc, hs, hne, hcl, hclean, ha, hr]
    refine ⟨by simp [ht], ?_⟩
    simp [ht, statusWrites, scrapingUpdate, scrapedUpdate, classifyingUpdate,
      qualityUpdate, analyzingUpdate, genPdfUpdate, generatingUpdate, doneUpdate]

theorem low_yield_uses_raw_top15_witness :
    (∀ k, happyEnv.cancelledAt k = false) ∧
    happyEnv.scrape = .ok ["r1", "r2"] ∧ (["r1", "r2"] : List String) ≠ [] ∧
    happyEnv.classify ["r1", "r2"] = .ok ["r1", "r2"] ∧
    (["r1", "r2"] : List String).length < 5 ∧
    (Event.callAnalyze (List.take 15 ["r1", "r2"]) ∈ (run_pipeline happyEnv).1 ∧
     (∀ b p, happyEnv.analyze (List.take 15 ["r1", "r2"]) = .ok b →
        happyEnv.render b = .ok p →
        (run_pipeline happyEnv).2 = none ∧
        (statusWrites (run_pipeline happyEnv).1).getLast? = some "done")) :=
  ⟨fun _ => rfl, rfl, by simp, rfl, by simp,
   low_yield_uses_raw_top15 happyEnv ["r1", "r2"] ["r1", "r2"] (fun _ => rfl) rfl
     (by simp) rfl (by simp)⟩

/-- Invariant of every run: the only `_update_job` call passing `result_json`
is the final DONE write. -/
theorem result_json_write_is_done (env : StageEnv) (u : UpdateFields)
    (hu : Event.update u ∈ (run_pipeline env).1) (hru : u.result_json ≠ none) :
    u.status = some "done" := by
  simp only [run_pipeline] at hu
  repeat' split at hu
  all_goals simp_all [scrapingUpdate, scrapedUpdate, classifyingUpdate,
    qualityUpdate, analyzingUpdate, genPdfUpdate, generatingUpdate, doneUpdate,
    failedUpdate]
  all_goals casesm* _ ∨ _
  all_goals simp_all

/-- C5: when the render stage raises after analyze succeeded, the run ends
FAILED with result_json and report_path still unset, the exception is
re-raised, and (for every run, any environment) result_json is only ever
written together with status "done". -/
theorem render_failure_leaves_no_result (env : StageEnv) (raw cls : List String)
    (b msg : String) (jid pn : String) (mau : Option Int) (arpu : Option ℚ) (t0 : Nat)
    (hc : ∀ k, env.cancelledAt k = false)
    (hs : env.scrape = .ok raw) (hraw : raw ≠ [])
    (hcl : env.classify raw = .ok cls)
    (ha : env.analyze (cleanOf raw cls) = .ok b)
    (hr : env.render b = .error msg) :
    (runJob env (initialJob jid pn mau arpu t0)).status = "failed" ∧
    (runJob env (initialJob jid pn mau arpu t0)).result_json = none ∧
    (runJob env (initialJob jid pn mau arpu t0)).report_path = none ∧
    (run_pipeline env).2 = some msg ∧
    (∀ env' : StageEnv, ∀ u : UpdateFields,
      Event.update u ∈ (run_pipeline env').1 → u.result_json ≠ none →
      u.status = some "done") := by
  have hne : raw.isEmpty = false := by
    cases raw with
    | nil => exact absurd rfl hraw
    | cons a t => rfl
  have ht : run_pipeline env =
      ([.update scrapingUpdate, .callScrape, .update (scrapedUpdate raw.length),
        .update classifyingUpdate, .callClassify raw,
        .update (qualityUpdate (cleanOf raw cls).length), .update analyzingUpdate,
        .callAnalyze (cleanOf raw cls), .update genPdfUpdate, .update generatingUpdate,
        .callRender b, .update (failedUpdate msg)], some msg) := by
    simp [run_pipeline, hc, hs, hne, hcl, ha, hr]
  refine ⟨?_, ?_, ?_, by simp [ht], fun env' u hu hru => result_json_write_is_done env' u hu hru⟩ <;>
    simp [runJob, ht, applyEvent, applyUpdate, initialJob, scrapingUpdate,
      scrapedUpdate, classifyingUpdate, qualityUpdate, analyzingUpdate,
      genPdfUpdate, generatingUpdate, failedUpdate]

theorem render_failure_leaves_no_result_witness :
    (∀ k, renderFailEnv.cancelledAt k = false) ∧
    renderFailEnv.scrape = .ok ["r1", "r2"] ∧
    renderFailEnv.classify ["r1", "r2"] = .ok ["r1", "r2"] ∧
    renderFailEnv.analyze (cleanOf ["r1", "r2"] ["r1", "r2"]) = .ok "analysis" ∧
    renderFailEnv.render "analysis" = .error "render boom" ∧
    ((runJob renderFailEnv (initialJob "j1" "Acme" none none 0)).status = "failed" ∧
     (runJob renderFailEnv (initialJob "j1" "Acme" none none 0)).result_json = none ∧
     (runJob renderFailEnv (initialJob "j1" "Acme" none none 0)).report_path = none ∧
     (run_pipeline renderFailEnv).2 = some "render boom" ∧
     (∀ env' : StageEnv, ∀ u : UpdateFields,
       Event.update u ∈ (run_pipeline env').1 → u.result_json ≠ none →
       u.status = some "done")) :=
  ⟨fun _ => rfl, rfl, rfl, rfl, rfl,
   render_failure_leaves_no_result renderFailEnv ["r1", "r2"] ["r1", "r2"] "analysis"
     "render boom" "j1" "Acme" none none 0 (fun _ => rfl) rfl (by simp) rfl rfl rfl⟩

/-- C7: whenever a run re-raises an exception (any stage call raised), its
event list ends with exactly one FAILED write — status "failed", error the
stringified cause, progress 0 — written before the re-raise, and "failed" is
written exactly once over the whole run. -/
theorem stage_failure_single_failed_write (env : StageEnv) (msg : String)
    (h : (run_pipeline env).2 = some msg) :
    (run_pipeline env).1.getLast? = some (Event.update (failedUpdate msg)) ∧
    (statusWrites (run_pipeline env).1).count "failed" = 1 ∧
    (failedUpdate msg).status = some "failed" ∧
    (failedUpdate msg).error = some msg ∧
    (failedUpdate msg).progress_pct = some 0 := by
  simp only [run_pipeline] at h ⊢
  repeat' split at h
  all_goals simp_all [statusWrites, List.count_cons, scrapingUpdate, scrapedUpdate,
    classifyingUpdate, qualityUpdate, analyzingUpdate, genPdfUpdate,
    generatingUpdate, doneUpdate, failedUpdate]

theorem stage_failure_single_failed_write_witness :
    (run_pipeline renderFailEnv).2 = some "render boom" ∧
    ((run_pipeline renderFailEnv).1.getLast? =
        some (Event.update (failedUpdate "render boom")) ∧
     (statusWrites (run_pipeline renderFailEnv).1).count "failed" = 1 ∧
     (failedUpdate "render boom").status = some "failed" ∧
     (failedUpdate "render boom").error = some "render boom" ∧
     (failedUpdate "render boom").progress_pct = some 0) :=
  ⟨rfl, stage_failure_single_failed_write renderFailEnv "render boom" rfl⟩

/-- The substituted review list is never empty when the raw list is not. -/
theorem cleanOf_ne_nil (raw cls : List String) (hraw : raw ≠ []) :
    cleanOf raw cls ≠ [] := by
  unfold cleanOf
  split
  · cases raw with
    | nil => exact absurd rfl hraw
    | cons a t => simp
  · rename_i hge
    intro hnil
    rw [hnil] at hge
    simp at hge

/-- C9: whenever the analyze client is invoked, its review list is non-empty:
the call is reached only with a non-empty scrape result, and the list is the
classifier output when it has at least 5 items, else the (non-empty) first-15
truncation of the raw list. -/
theorem analyze_input_nonempty (env : StageEnv) (l : List String)
    (h : Event.callAnalyze l ∈ (run_pipeline env).1) :
    l ≠ [] ∧
    ∃ raw cls, env.scrape = .ok raw ∧ raw ≠ [] ∧ env.classify raw = .ok cls ∧
      l = cleanOf raw cls ∧
      ((5 ≤ cls.length ∧ l = cls) ∨ (cls.length < 5 ∧ l = raw.take 15)) := by
  cases h0 : env.cancelledAt 0 with
  | true => simp [run_pipeline, h0] at h
  | false =>
  cases hs : env.scrape with
  | error e => simp [run_pipeline, h0, hs] at h
  | ok raw =>
  cases hne : raw.isEmpty with
  | true => simp [run_pipeline, h0, hs, hne] at h
  | false =>
  have hraw : raw ≠ [] := by
    cases raw with
    | nil => simp at hne
    | cons a t => simp
  cases h1 : env.cancelledAt 1 with
  | true => simp [run_pipeline, h0, hs, hne, h1] at h
  | false =>
  cases h2 : env.cancelledAt 2 with
  | true => simp [run_pipeline, h0, hs, hne, h1, h2] at h
  | false =>
  cases hcl : env.classify raw with
  | error e => simp [run_pipeline, h0, hs, hne, h1, h2, hcl] at h
  | ok cls =>
  cases h3 : env.cancelledAt 3 with
  | true => simp [run_pipeline, h0, hs, hne, h1, h2, hcl, h3] at h
  | false =>
  cases h4 : env.cancelledAt 4 with
  | true => simp [run_pipeline, h0, hs, hne, h1, h2, hcl, h3, h4] at h
  | false =>
  have hl : l = cleanOf raw cls := by
    cases hA : env.analyze (cleanOf raw cls) with
    | error e =>
        simp [run_pipeline, h0, hs, hne, h1, h2, hcl, h3, h4, hA] at h
        exact h
    | ok b =>
    cases h5 : env.cancelledAt 5 with
    | true =>
        simp [run_pipeline, h0, hs, hne, h1, h2, hcl, h3, h4, hA, h5] at h
        exact h
    | false =>
    cases hR : env.render b with
    | error e2 =>
        simp [run_pipeline, h0, hs, hne, h1, h2, hcl, h3, h4, hA, h5, hR] at h
        exact h
    | ok p =>
        simp [run_pipeline, h0, hs, hne, h1, h2, hcl, h3, h4, hA, h5, hR] at h
        exact h
  subst hl
  refine ⟨cleanOf_ne_nil raw cls hraw, raw, cls, rfl, hraw, hcl, rfl, ?_⟩
  rcases Nat.lt_or_ge cls.length 5 with hlt | hge
  · exact Or.inr ⟨hlt, by simp [cleanOf, hlt]⟩
  · refine Or.inl ⟨hge, ?_⟩
    have hnlt : ¬ cls.length < 5 := Nat.not_lt.mpr hge
    simp [cleanOf, hnlt]

theorem analyze_input_nonempty_witness :
    Event.callAnalyze (List.take 15 ["r1", "r2"]) ∈ (run_pipeline happyEnv).1 ∧
    ((List.take 15 ["r1", "r2"] : List String) ≠ [] ∧
     ∃ raw cls, happyEnv.scrape = .ok raw ∧ raw ≠ [] ∧
       happyEnv.classify raw = .ok cls ∧
       List.take 15 ["r1", "r2"] = cleanOf raw cls ∧
       ((5 ≤ cls.length ∧ List.take 15 ["r1", "r2"] = cls) ∨
         (cls.length < 5 ∧ List.take 15 ["r1", "r2"] = List.take 15 raw))) :=
  ⟨by simp [run_pipeline, happyEnv, cleanOf],
   analyze_input_nonempty happyEnv (List.take 15 ["r1", "r2"])
     (by simp [run_pipeline, happyEnv, cleanOf])⟩

end Mercado
